import Mathlib

/-!
# Verification of the rt-tester periodic-execution engine

Shallow embedding of `src/rt-tester/rt-tester.cpp`: the period clock
(`inc_period`, `periodic_task_init`), the per-cycle measurement and
reporting decision of `do_rt_task`, the absolute-deadline wait of
`wait_rest_of_period` (as a syscall trace), and the startup sequence of
`main` (CLI flag handling and the seven-step real-time configuration).

C `long` values are embedded as `Int`; the C division and modulo on
(provably nonnegative) operands are embedded as `Int.tdiv` / `Int.tmod`,
which share C's truncation-toward-zero semantics.
-/

namespace RtTester

/-- `struct timespec`: seconds and nanoseconds components (C `long`s). -/
structure Timespec where
  tv_sec : Int
  tv_nsec : Int
deriving Repr, DecidableEq

/-- `struct period_info`: the next absolute deadline, the period length and
the derived report-throttle divisor. -/
structure PeriodInfo where
  next_period : Timespec
  period_ns : Int
  print_rate : Int
deriving Repr, DecidableEq

/-- The `while (tv_nsec >= 1000000000)` normalization loop inside
`inc_period` (rt-tester.cpp lines 76–80): repeatedly carries one whole
second from the nanosecond component into the seconds component. -/
def normalizeLoop (ts : Timespec) : Timespec :=
  if h : ts.tv_nsec ≥ 1000000000 then
    normalizeLoop ⟨ts.tv_sec + 1, ts.tv_nsec - 1000000000⟩
  else ts
termination_by ts.tv_nsec.toNat
decreasing_by
  omega

/-- `inc_period` (rt-tester.cpp lines 72–81): add `period_ns` to the
nanosecond component of `next_period`, then normalize. -/
def inc_period (pinfo : PeriodInfo) : PeriodInfo :=
  { pinfo with
    next_period :=
      normalizeLoop ⟨pinfo.next_period.tv_sec,
                     pinfo.next_period.tv_nsec + pinfo.period_ns⟩ }

/-- `periodic_task_init` (rt-tester.cpp lines 83–88): store the period,
derive `print_rate`, and capture the current monotonic time (passed here
as the parameter `now`) as the first deadline. -/
def periodic_task_init (period_ns print_per_sec : Int) (now : Timespec) :
    PeriodInfo :=
  { next_period := now
    period_ns := period_ns
    print_rate :=
      if print_per_sec = 0 then 0
      else Int.tdiv 1000000000 (period_ns * print_per_sec) }

/-- `diff_nanosec` (rt-tester.cpp lines 67–70): signed nanosecond
difference of two timestamps. -/
def diff_nanosec (time1 time0 : Timespec) : Int :=
  1000000000 * (time1.tv_sec - time0.tv_sec) + (time1.tv_nsec - time0.tv_nsec)

/-- Total nanoseconds represented by a timestamp. -/
def totalNs (ts : Timespec) : Int :=
  ts.tv_sec * 1000000000 + ts.tv_nsec

/-- `period_exceeded` (rt-tester.cpp line 109): the measured wake-up delay
strictly exceeds one period. -/
def period_exceeded (pinfo : PeriodInfo) (delay_ns : Int) : Bool :=
  delay_ns > pinfo.period_ns

/-- `print_info` (rt-tester.cpp line 110): the modulo-based report
throttle. -/
def print_info (pinfo : PeriodInfo) : Bool :=
  pinfo.print_rate ≠ 0 &&
    Int.tmod (Int.tdiv pinfo.next_period.tv_nsec pinfo.period_ns)
      pinfo.print_rate = 0

/-- Whether `do_rt_task` (rt-tester.cpp lines 115–123) emits a report line
this cycle: the `if (period_exceeded) … else if (print_info) …` chain
prints in exactly those two branches. -/
def report_emitted (pinfo : PeriodInfo) (delay_ns : Int) : Bool :=
  period_exceeded pinfo delay_ns || print_info pinfo

/-- The reporting decision of cycle `k`: `do_rt_task` consults `print_info`
on the state produced by `k` prior `wait_rest_of_period` advances of the
initial state `p0`. -/
def shouldReportAt (p0 : PeriodInfo) (k : ℕ) : Bool :=
  print_info (inc_period^[k] p0)

/-- The spec's cadence property, "`should_report` is true exactly once
every `print_rate` periods": every window of `print_rate` consecutive
cycles contains exactly one reporting cycle. -/
def reportsOncePerWindow (p0 : PeriodInfo) : Prop :=
  ∀ m : ℕ, ∃! i : ℕ,
    i < p0.print_rate.toNat ∧ shouldReportAt p0 (m + i) = true

/-- The wait mode passed to `clock_nanosleep`: `TIMER_ABSTIME`
(absolute-deadline wait) or a relative-duration sleep. -/
inductive WaitMode
  | absolute
  | relative
deriving Repr, DecidableEq

/-- A blocking wait issued to the OS: which clock, which mode, and the
target timespec. -/
structure SleepCall where
  clock_monotonic : Bool
  mode : WaitMode
  target : Timespec
deriving Repr, DecidableEq

/-- `wait_rest_of_period` (rt-tester.cpp lines 90–95): advance the
deadline with `inc_period`, then issue a single
`clock_nanosleep(CLOCK_MONOTONIC, TIMER_ABSTIME, &pinfo->next_period, NULL)`.
The second component is the sequence of blocking waits the function
issues; the body is straight-line code with no loop and no inspection of
the wake-up result. -/
def wait_rest_of_period (pinfo : PeriodInfo) : PeriodInfo × List SleepCall :=
  let p' := inc_period pinfo
  (p', [⟨true, WaitMode.absolute, p'.next_period⟩])

/-- The waits issued by `k` iterations of the `while (1)` loop of
`simple_cyclic_task` (rt-tester.cpp lines 139–142), which calls
`wait_rest_of_period` once per cycle. -/
def cycleSleeps : PeriodInfo → ℕ → PeriodInfo × List SleepCall
  | p, 0 => (p, [])
  | p, Nat.succ k =>
      let r := wait_rest_of_period p
      let rest := cycleSleeps r.1 k
      (rest.1, r.2 ++ rest.2)

/-- One result of the `getopt(argc, argv, "p:r:")` loop in `main`
(rt-tester.cpp lines 159–169): a recognized `-p` or `-r` option with its
argument text, or anything else (an unrecognized flag, or an option with
a missing argument), which lands in the `switch`'s `default` case. -/
inductive OptResult
  | optP (arg : String)
  | optR (arg : String)
  | unknown
deriving Repr, DecidableEq

/-- The outcomes of the OS configuration calls `main` makes, supplied by
the environment: whether `mlockall` succeeds, and the `int` codes
returned by the pthread calls (0 = success, nonzero = error code). -/
structure SetupEnv where
  mlockall_ok : Bool
  attr_init : Int
  setstacksize : Int
  setschedpolicy : Int
  setschedparam : Int
  setinheritsched : Int
  create : Int
  join : Int
deriving Repr, DecidableEq

/-- The observable outcome of `main`: whether the usage message was
written to standard error, whether `mlockall` succeeded, how many of the
seven setup steps ran (memory-lock, attribute-init, stack-size,
scheduling-policy, priority, explicit-inheritance, thread-creation, in
this order), whether the worker thread was created, and the process exit
code. -/
structure MainResult where
  usage_printed : Bool
  memory_locked : Bool
  steps_attempted : ℕ
  thread_created : Bool
  exit_code : Int
deriving Repr, DecidableEq

/-- `EXIT_FAILURE` on the target platform. -/
def EXIT_FAILURE : Int := 1

/-- `main` (rt-tester.cpp lines 147–226), as the control flow it takes on
an option stream `opts` and call outcomes `env`: the first unrecognized
flag makes the `default:` case print usage and `exit(EXIT_FAILURE)`
before `mlockall`; a failed `mlockall` calls `exit(-2)`; each subsequent
pthread call that returns nonzero jumps to `out:` and returns that code;
on full success the thread is created, joined, and `main` returns the
join result. -/
def main_model (opts : List OptResult) (env : SetupEnv) : MainResult :=
  if OptResult.unknown ∈ opts then
    ⟨true, false, 0, false, EXIT_FAILURE⟩
  else if env.mlockall_ok = false then
    ⟨false, false, 1, false, -2⟩
  else if env.attr_init ≠ 0 then
    ⟨false, true, 2, false, env.attr_init⟩
  else if env.setstacksize ≠ 0 then
    ⟨false, true, 3, false, env.setstacksize⟩
  else if env.setschedpolicy ≠ 0 then
    ⟨false, true, 4, false, env.setschedpolicy⟩
  else if env.setschedparam ≠ 0 then
    ⟨false, true, 5, false, env.setschedparam⟩
  else if env.setinheritsched ≠ 0 then
    ⟨false, true, 6, false, env.setinheritsched⟩
  else if env.create ≠ 0 then
    ⟨false, true, 7, false, env.create⟩
  else
    ⟨false, true, 7, true, env.join⟩

/-- The error outcome of setup step `i` (numbered 1–7 in execution
order): step 1 is `mlockall`, whose failure `main` maps to the dedicated
code `-2`; steps 2–7 are the pthread calls, whose failure code is their
return value. -/
def stepError (env : SetupEnv) : ℕ → Int
  | 1 => if env.mlockall_ok then 0 else -2
  | 2 => env.attr_init
  | 3 => env.setstacksize
  | 4 => env.setschedpolicy
  | 5 => env.setschedparam
  | 6 => env.setinheritsched
  | 7 => env.create
  | _ => 0

/-! ## Properties of the normalization loop -/

theorem normalizeLoop_totalNs (ts : Timespec) :
    totalNs (normalizeLoop ts) = totalNs ts := by
  induction ts using normalizeLoop.induct with
  | case1 ts h ih =>
    rw [normalizeLoop, dif_pos h]
    rw [ih]
    simp only [totalNs]
    ring
  | case2 ts h =>
    rw [normalizeLoop, dif_neg h]

theorem normalizeLoop_nsec_lt (ts : Timespec) :
    (normalizeLoop ts).tv_nsec < 1000000000 := by
  induction ts using normalizeLoop.induct with
  | case1 ts h ih =>
    rw [normalizeLoop, dif_pos h]
    exact ih
  | case2 ts h =>
    rw [normalizeLoop, dif_neg h]
    omega

theorem normalizeLoop_nsec_nonneg (ts : Timespec) (h0 : 0 ≤ ts.tv_nsec) :
    0 ≤ (normalizeLoop ts).tv_nsec := by
  induction ts using normalizeLoop.induct with
  | case1 ts h ih =>
    rw [normalizeLoop, dif_pos h]
    exact ih (by show (0:Int) ≤ ts.tv_nsec - 1000000000; omega)
  | case2 ts h =>
    rw [normalizeLoop, dif_neg h]
    exact h0

theorem normalizeLoop_closed (ts : Timespec) (h0 : 0 ≤ ts.tv_nsec) :
    normalizeLoop ts
      = ⟨ts.tv_sec + ts.tv_nsec / 1000000000, ts.tv_nsec % 1000000000⟩ := by
  induction ts using normalizeLoop.induct with
  | case1 ts h ih =>
    rw [normalizeLoop, dif_pos h]
    rw [ih (by show (0:Int) ≤ ts.tv_nsec - 1000000000; omega)]
    simp only [Timespec.mk.injEq]
    omega
  | case2 ts h =>
    rw [normalizeLoop, dif_neg h]
    show (⟨ts.tv_sec, ts.tv_nsec⟩ : Timespec) = _
    simp only [Timespec.mk.injEq]
    omega

theorem inc_period_closed (p : PeriodInfo)
    (h : 0 ≤ p.next_period.tv_nsec + p.period_ns) :
    inc_period p
      = ⟨⟨p.next_period.tv_sec
            + (p.next_period.tv_nsec + p.period_ns) / 1000000000,
          (p.next_period.tv_nsec + p.period_ns) % 1000000000⟩,
         p.period_ns, p.print_rate⟩ := by
  simp only [inc_period]
  rw [normalizeLoop_closed _ h]

theorem inc_period_period_ns (p : PeriodInfo) :
    (inc_period p).period_ns = p.period_ns := rfl

theorem inc_period_print_rate (p : PeriodInfo) :
    (inc_period p).print_rate = p.print_rate := rfl

theorem inc_period_totalNs (p : PeriodInfo) :
    totalNs (inc_period p).next_period = totalNs p.next_period + p.period_ns := by
  simp only [inc_period]
  rw [normalizeLoop_totalNs]
  simp only [totalNs]
  ring

theorem iterate_inc_period_period_ns (p : PeriodInfo) (k : ℕ) :
    (inc_period^[k] p).period_ns = p.period_ns := by
  induction k with
  | zero => rfl
  | succ n ih => rw [Function.iterate_succ_apply', inc_period_period_ns, ih]

theorem iterate_inc_period_print_rate (p : PeriodInfo) (k : ℕ) :
    (inc_period^[k] p).print_rate = p.print_rate := by
  induction k with
  | zero => rfl
  | succ n ih => rw [Function.iterate_succ_apply', inc_period_print_rate, ih]

theorem inc_period_nsec (p : PeriodInfo)
    (h : 0 ≤ p.next_period.tv_nsec + p.period_ns) :
    (inc_period p).next_period.tv_nsec
      = (p.next_period.tv_nsec + p.period_ns) % 1000000000 := by
  rw [inc_period_closed p h]

theorem iterate_inc_period_nsec (p : PeriodInfo) (k : ℕ)
    (hper : 0 ≤ p.period_ns) (h0 : 0 ≤ p.next_period.tv_nsec)
    (h1 : p.next_period.tv_nsec < 1000000000) :
    (inc_period^[k] p).next_period.tv_nsec
      = (p.next_period.tv_nsec + (k : Int) * p.period_ns) % 1000000000 := by
  induction k with
  | zero => simp; omega
  | succ n ih =>
    rw [Function.iterate_succ_apply', inc_period_nsec, ih,
        iterate_inc_period_period_ns, Int.emod_add_emod]
    · push_cast
      ring_nf
    · rw [ih, iterate_inc_period_period_ns]
      have := Int.emod_nonneg (p.next_period.tv_nsec + (n : Int) * p.period_ns)
        (show (1000000000 : Int) ≠ 0 by decide)
      positivity

/-! ## Arithmetic of the modulo-based throttle -/

theorem window_mod (b c p N : ℕ) (hc : c < p) (hN : 0 < N) :
    (b * p + c) % (N * p) = b % N * p + c := by
  conv_lhs => rw [← Nat.div_add_mod b N]
  have he : (N * (b / N) + b % N) * p + c
      = b % N * p + c + b / N * (N * p) := by ring
  rw [he, Nat.add_mul_mod_self_right]
  apply Nat.mod_eq_of_lt
  have h1 : b % N < N := Nat.mod_lt _ hN
  have h2 : (b % N + 1) * p ≤ N * p := Nat.mul_le_mul_right _ (by omega)
  have h3 : b % N * p + p = (b % N + 1) * p := by ring
  omega

theorem cycle_quotient (a p s r k : ℕ) (hp : 0 < p) (hs : 0 < s)
    (hr : 0 < r) (hmul : p * s * r = 1000000000) :
    (a + k * p) % 1000000000 / p % r = (a / p + k) % r := by
  have h9 : (1000000000 : ℕ) = s * r * p := by rw [← hmul]; ring
  have hN : 0 < s * r := Nat.mul_pos hs hr
  have ha : a + k * p = (a / p + k) * p + a % p := by
    have := Nat.div_add_mod a p
    ring_nf
    omega
  rw [h9, ha, window_mod _ _ _ _ (Nat.mod_lt _ hp) hN,
      Nat.mul_comm ((a / p + k) % (s * r)) p, Nat.mul_add_div hp,
      Nat.div_eq_of_lt (Nat.mod_lt _ hp), Nat.add_zero,
      Nat.mod_mod_of_dvd _ (dvd_mul_left r s)]

theorem existsUnique_window_hit (q r m : ℕ) (hr : 0 < r) :
    ∃! i, i < r ∧ (q + (m + i)) % r = 0 := by
  have ht : (q + m) % r < r := Nat.mod_lt _ hr
  have huniq : ∀ i j, i < r → j < r → (q + (m + i)) % r = 0 →
      (q + (m + j)) % r = 0 → i = j := by
    intro i j hi hj h1 h2
    have hm2 : (q + m + i) % r = (q + m + j) % r := by
      rw [Nat.add_assoc, Nat.add_assoc, h1, h2]
    have hc := Nat.ModEq.add_left_cancel' (q + m) hm2
    have hc' : i % r = j % r := hc
    rwa [Nat.mod_eq_of_lt hi, Nat.mod_eq_of_lt hj] at hc'
  have hex : ∃ i, i < r ∧ (q + (m + i)) % r = 0 := by
    by_cases h : (q + m) % r = 0
    · exact ⟨0, hr, by simpa [← Nat.add_assoc] using h⟩
    · refine ⟨r - (q + m) % r, by omega, ?_⟩
      rw [← Nat.add_assoc, Nat.add_mod (q + m) (r - (q + m) % r) r,
          Nat.mod_eq_of_lt (show r - (q + m) % r < r by omega)]
      have hsum : (q + m) % r + (r - (q + m) % r) = r := by omega
      rw [hsum, Nat.mod_self]
  obtain ⟨i, hi⟩ := hex
  exact ⟨i, hi, fun j hj => huniq j i hj.1 hi.1 hj.2 hi.2⟩

/-! ## Claim theorems -/

/-- C1: drift-freedom of the schedule. For every `period_ns > 0` and every
initial `next_period` with nanosecond component in `[0, 1_000_000_000)`,
after `k` calls to `inc_period` the total-nanosecond reading of
`next_period` (`tv_sec*1e9 + tv_nsec`) equals the initial reading plus
exactly `k * period_ns` — the advance never depends on how long any task
body took. -/
theorem inc_period_drift_free (p : PeriodInfo) (k : ℕ)
    (hper : 0 < p.period_ns)
    (h0 : 0 ≤ p.next_period.tv_nsec)
    (h1 : p.next_period.tv_nsec < 1000000000) :
    totalNs ((inc_period^[k]) p).next_period
      = totalNs p.next_period + (k : Int) * p.period_ns := by
  induction k with
  | zero => simp
  | succ n ih =>
    rw [Function.iterate_succ_apply', inc_period_totalNs,
        iterate_inc_period_period_ns, ih]
    push_cast
    ring

/-- Witness for C1: from a zero timestamp, three 1 ms advances add exactly
3_000_000 ns. -/
theorem inc_period_drift_free_witness :
    totalNs ((inc_period^[3]) ⟨⟨0, 0⟩, 1000000, 200⟩).next_period
      = totalNs (⟨0, 0⟩ : Timespec) + (3 : Int) * 1000000 :=
  inc_period_drift_free ⟨⟨0, 0⟩, 1000000, 200⟩ 3
    (by decide) (by decide) (by decide)

/-- C2: normalization invariant. If the nanosecond component of
`next_period` lies in `[0, 1_000_000_000)` before `inc_period` and
`period_ns > 0`, then after the call it again lies in
`[0, 1_000_000_000)`; the `while` normalization handles additions that
overflow the one-second boundary by more than one whole second. -/
theorem inc_period_nsec_normalized (p : PeriodInfo)
    (hper : 0 < p.period_ns)
    (h0 : 0 ≤ p.next_period.tv_nsec)
    (h1 : p.next_period.tv_nsec < 1000000000) :
    0 ≤ (inc_period p).next_period.tv_nsec ∧
      (inc_period p).next_period.tv_nsec < 1000000000 := by
  simp only [inc_period]
  refine ⟨normalizeLoop_nsec_nonneg _ ?_, normalizeLoop_nsec_lt _⟩
  show (0 : Int) ≤ p.next_period.tv_nsec + p.period_ns
  omega

/-- Witness for C2: a 2.5-second period added to a 0.9-second nanosecond
component overflows by more than one second and is still normalized back
into `[0, 1e9)`. -/
theorem inc_period_nsec_normalized_witness :
    0 ≤ (inc_period ⟨⟨5, 900000000⟩, 2500000000, 0⟩).next_period.tv_nsec ∧
      (inc_period ⟨⟨5, 900000000⟩, 2500000000, 0⟩).next_period.tv_nsec
        < 1000000000 :=
  inc_period_nsec_normalized ⟨⟨5, 900000000⟩, 2500000000, 0⟩
    (by decide) (by decide) (by decide)

/-- C4: the exceeded-deadline predicate. `period_exceeded` is true iff the
measured `delay_ns` is strictly greater than `period_ns`; in particular
the boundary case `delay_ns = period_ns` is not classified as exceeded. -/
theorem period_exceeded_iff (p : PeriodInfo) (delay_ns : Int) :
    (period_exceeded p delay_ns = true ↔ delay_ns > p.period_ns) ∧
      period_exceeded p p.period_ns = false := by
  simp [period_exceeded]

/-- C5: `print_rate` derivation. `periodic_task_init` computes
`print_rate = 0` when `print_per_sec = 0`, otherwise
`print_rate = 1_000_000_000 / (period_ns * print_per_sec)` by truncating
integer division; and a `print_rate` of 0 disables rate-based reporting,
so a cycle is reported iff its deadline was exceeded. -/
theorem print_rate_derivation (period_ns print_per_sec delay_ns : Int)
    (now : Timespec) (hper : 0 < period_ns) (hpps : 0 < print_per_sec) :
    (periodic_task_init period_ns 0 now).print_rate = 0 ∧
    (periodic_task_init period_ns print_per_sec now).print_rate
      = Int.tdiv 1000000000 (period_ns * print_per_sec) ∧
    print_info (periodic_task_init period_ns 0 now) = false ∧
    report_emitted (periodic_task_init period_ns 0 now) delay_ns
      = period_exceeded (periodic_task_init period_ns 0 now) delay_ns := by
  refine ⟨rfl, ?_, ?_, ?_⟩
  · simp [periodic_task_init, hpps.ne']
  · simp [print_info, periodic_task_init]
  · simp [report_emitted, print_info, periodic_task_init]

/-- Witness for C5 at `period_ns = 1_000_000`, `print_per_sec = 5`,
`delay_ns = 7`. -/
theorem print_rate_derivation_witness :
    (periodic_task_init 1000000 0 ⟨0, 0⟩).print_rate = 0 ∧
    (periodic_task_init 1000000 5 ⟨0, 0⟩).print_rate
      = Int.tdiv 1000000000 (1000000 * 5) ∧
    print_info (periodic_task_init 1000000 0 ⟨0, 0⟩) = false ∧
    report_emitted (periodic_task_init 1000000 0 ⟨0, 0⟩) 7
      = period_exceeded (periodic_task_init 1000000 0 ⟨0, 0⟩) 7 :=
  print_rate_derivation 1000000 5 7 ⟨0, 0⟩ (by decide) (by decide)

/-- C10: silent truncation of the report rate. When
`period_ns * print_per_sec > 1_000_000_000` with both factors positive,
the integer division in `periodic_task_init` yields `print_rate = 0`, so
rate-based reporting is silently disabled (`print_info` is false on every
cycle) even though the caller requested a positive rate. -/
theorem print_rate_truncates_to_zero (period_ns print_per_sec : Int)
    (now : Timespec) (k : ℕ)
    (hper : 0 < period_ns) (hpps : 0 < print_per_sec)
    (hbig : 1000000000 < period_ns * print_per_sec) :
    (periodic_task_init period_ns print_per_sec now).print_rate = 0 ∧
    print_info
      (inc_period^[k] (periodic_task_init period_ns print_per_sec now))
      = false := by
  have hz : (periodic_task_init period_ns print_per_sec now).print_rate = 0 := by
    simp only [periodic_task_init, if_neg hpps.ne']
    rw [Int.tdiv_eq_ediv (by omega) (by positivity)]
    exact Int.ediv_eq_zero_of_lt (by omega) hbig
  refine ⟨hz, ?_⟩
  simp [print_info, iterate_inc_period_print_rate, hz]

/-- Witness for C10: the default 1 ms period with `-r 1001` requested
reports-per-second yields `print_rate = 0` and no rate-based report on
cycle 4. -/
theorem print_rate_truncates_to_zero_witness :
    (periodic_task_init 1000000 1001 ⟨0, 0⟩).print_rate = 0 ∧
    print_info (inc_period^[4] (periodic_task_init 1000000 1001 ⟨0, 0⟩))
      = false :=
  print_rate_truncates_to_zero 1000000 1001 ⟨0, 0⟩ 4
    (by decide) (by decide) (by decide)

/-- C6: report emission condition. A cycle emits a report line iff the
cycle is exceeded or the throttled rate condition holds; consequently with
`print_per_sec = 0` (hence `print_rate = 0`) no routine report is ever
emitted no matter how many cycles run, while an exceeded cycle is still
always reported. -/
theorem report_emission_condition (p : PeriodInfo)
    (delay_ns delay2_ns period_ns : Int) (now : Timespec) (k : ℕ) :
    (report_emitted p delay_ns = true ↔
       period_exceeded p delay_ns = true ∨ print_info p = true) ∧
    print_info (inc_period^[k] (periodic_task_init period_ns 0 now))
      = false ∧
    report_emitted (inc_period^[k] (periodic_task_init period_ns 0 now))
        delay2_ns
      = period_exceeded (inc_period^[k] (periodic_task_init period_ns 0 now))
          delay2_ns := by
  have hpi : print_info (inc_period^[k] (periodic_task_init period_ns 0 now))
      = false := by
    simp [print_info, iterate_inc_period_print_rate, periodic_task_init]
  refine ⟨by simp [report_emitted], hpi, ?_⟩
  simp [report_emitted, hpi]

/-- C3 counterexample: with `period_ns = 400_000_000` (0.4 s),
`print_per_sec = 1` (so `print_rate = 2`) and initial deadline `0`, the
throttle `tv_nsec / period_ns % print_rate` reports on both cycle 2
(`tv_nsec = 8e8`, quotient 2) and cycle 3 (`tv_nsec = 2e8` after the
second boundary, quotient 0) — two reports inside one window of
`print_rate = 2` consecutive cycles, so `should_report` is not true
exactly once every `print_rate` periods: the sub-second `tv_nsec` wraps at
wall-clock second boundaries, so the cadence is not independent of them. -/
theorem report_cadence_counterexample :
    ¬ reportsOncePerWindow (periodic_task_init 400000000 1 ⟨0, 0⟩) := by
  intro hclaim
  have e1 : inc_period (periodic_task_init 400000000 1 ⟨0, 0⟩)
      = ⟨⟨0, 400000000⟩, 400000000, 2⟩ := by
    rw [inc_period_closed _ (by decide)]
    decide
  have e2 : inc_period^[2] (periodic_task_init 400000000 1 ⟨0, 0⟩)
      = ⟨⟨0, 800000000⟩, 400000000, 2⟩ := by
    rw [show (2 : ℕ) = 1 + 1 from rfl, Function.iterate_add_apply,
        Function.iterate_one, e1, inc_period_closed _ (by decide)]
    decide
  have e3 : inc_period^[3] (periodic_task_init 400000000 1 ⟨0, 0⟩)
      = ⟨⟨1, 200000000⟩, 400000000, 2⟩ := by
    rw [show (3 : ℕ) = 1 + 2 from rfl, Function.iterate_add_apply,
        Function.iterate_one, e2, inc_period_closed _ (by decide)]
    decide
  have h2 : shouldReportAt (periodic_task_init 400000000 1 ⟨0, 0⟩) 2
      = true := by
    simp only [shouldReportAt]
    rw [e2]
    decide
  have h3 : shouldReportAt (periodic_task_init 400000000 1 ⟨0, 0⟩) 3
      = true := by
    simp only [shouldReportAt]
    rw [e3]
    decide
  obtain ⟨i, hi, huniq⟩ := hclaim 2
  have u0 : (0 : ℕ) = i := huniq 0 ⟨by decide, by simpa using h2⟩
  have u1 : (1 : ℕ) = i := huniq 1 ⟨by decide, by simpa using h3⟩
  omega

/-- C3 (amended): the reporting cadence is exact on the sub-class of
configurations where `period_ns * print_per_sec` divides 1_000_000_000
exactly (which includes the hardcoded defaults). For every
`period_ns > 0` and `print_per_sec > 0` with
`period_ns * print_per_sec ∣ 1_000_000_000`, and every initial
`next_period` with nanosecond component in `[0, 1e9)`, over consecutive
cycles `should_report` is true exactly once every `print_rate` periods.
For general `period_ns` the cadence breaks at wall-clock second
boundaries, since the throttle divides the sub-second `tv_nsec`, not an
elapsed-period counter. -/
theorem report_cadence_of_dvd (period_ns print_per_sec : Int)
    (now : Timespec) (hper : 0 < period_ns) (hpps : 0 < print_per_sec)
    (hdvd : period_ns * print_per_sec ∣ 1000000000)
    (h0 : 0 ≤ now.tv_nsec) (h1 : now.tv_nsec < 1000000000) :
    reportsOncePerWindow (periodic_task_init period_ns print_per_sec now) := by
  obtain ⟨p, hp⟩ := Int.eq_ofNat_of_zero_le hper.le
  obtain ⟨s, hs⟩ := Int.eq_ofNat_of_zero_le hpps.le
  obtain ⟨a, hA⟩ := Int.eq_ofNat_of_zero_le h0
  have hrate : (periodic_task_init period_ns print_per_sec now).print_rate
      = Int.tdiv 1000000000 (period_ns * print_per_sec) := by
    simp [periodic_task_init, hpps.ne']
  have hPSpos : 0 < period_ns * print_per_sec := mul_pos hper hpps
  have hRmul : (periodic_task_init period_ns print_per_sec now).print_rate
      * (period_ns * print_per_sec) = 1000000000 := by
    rw [hrate, Int.tdiv_eq_ediv (by decide) hPSpos.le]
    exact Int.ediv_mul_cancel hdvd
  have hRpos :
      0 < (periodic_task_init period_ns print_per_sec now).print_rate := by
    rcases mul_pos_iff.mp
        (show 0 < (periodic_task_init period_ns print_per_sec now).print_rate
            * (period_ns * print_per_sec) by rw [hRmul]; decide) with h | h
    · exact h.1
    · exact absurd hPSpos (not_lt.mpr h.2.le)
  obtain ⟨r, hrN⟩ := Int.eq_ofNat_of_zero_le hRpos.le
  have hpN : 0 < p := by rwa [hp, Int.natCast_pos] at hper
  have hsN : 0 < s := by rwa [hs, Int.natCast_pos] at hpps
  have hrposN : 0 < r := by rwa [hrN, Int.natCast_pos] at hRpos
  have hmulN : r * (p * s) = 1000000000 := by
    rw [hrN, hp, hs] at hRmul
    exact_mod_cast hRmul
  have hmulN' : p * s * r = 1000000000 := by rw [← hmulN]; ring
  have hrtoNat :
      (periodic_task_init period_ns print_per_sec now).print_rate.toNat
        = r := by
    rw [hrN]
    exact Int.toNat_natCast r
  have hreport : ∀ k : ℕ,
      (shouldReportAt (periodic_task_init period_ns print_per_sec now) k
          = true ↔ (a / p + k) % r = 0) := by
    intro k
    have hq1 : (inc_period^[k]
        (periodic_task_init period_ns print_per_sec now)).print_rate
        = (r : Int) := by
      rw [iterate_inc_period_print_rate, hrN]
    have hq2 : (inc_period^[k]
        (periodic_task_init period_ns print_per_sec now)).period_ns
        = (p : Int) := by
      rw [iterate_inc_period_period_ns]
      exact hp
    have hq3 : (inc_period^[k]
        (periodic_task_init period_ns print_per_sec now)).next_period.tv_nsec
        = (((a + k * p) % 1000000000 : ℕ) : Int) := by
      rw [iterate_inc_period_nsec _ k hper.le h0 h1]
      show (now.tv_nsec + (k : Int) * period_ns) % 1000000000 = _
      rw [hA, hp]
      push_cast
      ring_nf
    simp only [shouldReportAt, print_info, hq1, hq2, hq3,
      ← Int.ofNat_tdiv, ← Int.ofNat_tmod,
      cycle_quotient a p s r k hpN hsN hrposN hmulN']
    simp [hrposN.ne']
    rw [← Int.natCast_div, ← Nat.cast_add, Int.natCast_dvd_natCast]
    exact Nat.dvd_iff_mod_eq_zero
  intro m
  obtain ⟨i, ⟨hi1, hi2⟩, huniq⟩ := existsUnique_window_hit (a / p) r m hrposN
  refine ⟨i, ⟨by rw [hrtoNat]; exact hi1, (hreport (m + i)).mpr hi2⟩, ?_⟩
  rintro j ⟨hj1, hj2⟩
  exact huniq j ⟨by rwa [hrtoNat] at hj1, (hreport (m + j)).mp hj2⟩

/-- Witness for the amended C3 at the hardcoded defaults
`period_ns = 1_000_000`, `print_per_sec = 5` (`print_rate = 200`) and an
initial deadline with a nonzero nanosecond component. -/
theorem report_cadence_of_dvd_witness :
    reportsOncePerWindow (periodic_task_init 1000000 5 ⟨0, 123⟩) :=
  report_cadence_of_dvd 1000000 5 ⟨0, 123⟩ (by decide) (by decide)
    ⟨200, by decide⟩ (by decide) (by decide)

/-- C9: absolute-deadline wait semantics. Over `k` cycles the executor
issues exactly one blocking wait per cycle (`k` waits in total, so a
premature wake is never answered with a re-issued wait), each wait is an
absolute-time wait (`TIMER_ABSTIME`) on the monotonic clock rather than a
relative sleep for `period_ns`, its target is the deadline as advanced
for that cycle, and the state after `k` cycles is exactly `k` deadline
advances. The blocking itself is `clock_nanosleep`'s documented
semantics, embedded here as a single `SleepCall` event. -/
theorem wait_absolute_once_per_cycle (p : PeriodInfo) (k : ℕ) :
    (cycleSleeps p k).1 = inc_period^[k] p ∧
    (cycleSleeps p k).2
      = (List.range k).map
          (fun i => ⟨true, WaitMode.absolute,
                     (inc_period^[i + 1] p).next_period⟩) ∧
    (cycleSleeps p k).2.length = k := by
  have main : ∀ n q, (cycleSleeps q n).1 = inc_period^[n] q ∧
      (cycleSleeps q n).2
        = (List.range n).map
            (fun i => ⟨true, WaitMode.absolute,
                       (inc_period^[i + 1] q).next_period⟩) := by
    intro n
    induction n with
    | zero => intro q; simp [cycleSleeps]
    | succ m ih =>
      intro q
      obtain ⟨ih1, ih2⟩ := ih (inc_period q)
      constructor
      · show (cycleSleeps (inc_period q) m).1 = _
        rw [ih1, ← Function.iterate_succ_apply]
      · show (⟨true, WaitMode.absolute, (inc_period q).next_period⟩
            :: (cycleSleeps (inc_period q) m).2 : List SleepCall) = _
        rw [ih2, List.range_succ_eq_map, List.map_cons, List.map_map]
        congr 1
  obtain ⟨h1, h2⟩ := main k p
  exact ⟨h1, h2, by rw [h2]; simp⟩

/-- C7: startup atomicity and exit codes. With no unrecognized flag, if
setup step `i` (1 = memory-lock, 2 = attribute-init, 3 = stack-size,
4 = scheduling-policy, 5 = priority, 6 = explicit-inheritance,
7 = thread-creation) is the first failing step, then exactly steps `1..i`
run (no later step runs), the worker thread is never created, and the
process exits non-zero: with the dedicated code `-2` when memory locking
fails, and with the error code returned by the failing call otherwise. -/
theorem startup_first_failure_stops (opts : List OptResult) (env : SetupEnv)
    (i : ℕ) (hopts : OptResult.unknown ∉ opts)
    (hi1 : 1 ≤ i) (hi7 : i ≤ 7) (hfail : stepError env i ≠ 0)
    (hbefore : ∀ j, 1 ≤ j → j < i → stepError env j = 0) :
    (main_model opts env).steps_attempted = i ∧
    (main_model opts env).thread_created = false ∧
    (main_model opts env).exit_code = stepError env i ∧
    (main_model opts env).exit_code ≠ 0 ∧
    (i = 1 → (main_model opts env).exit_code = -2) := by
  interval_cases i
  · have hm : env.mlockall_ok = false := by
      by_contra h
      rw [Bool.not_eq_false] at h
      simp [stepError, h] at hfail
    simp [main_model, hopts, hm, stepError]
  · have hm : env.mlockall_ok = true := by
      have h1 := hbefore 1 (by omega) (by omega)
      by_contra h
      rw [Bool.not_eq_true] at h
      simp [stepError, h] at h1
    have hf : env.attr_init ≠ 0 := by simpa [stepError] using hfail
    simp [main_model, hopts, hm, hf, stepError]
  · have hm : env.mlockall_ok = true := by
      have h1 := hbefore 1 (by omega) (by omega)
      by_contra h
      rw [Bool.not_eq_true] at h
      simp [stepError, h] at h1
    have h2 : env.attr_init = 0 := by
      simpa [stepError] using hbefore 2 (by omega) (by omega)
    have hf : env.setstacksize ≠ 0 := by simpa [stepError] using hfail
    simp [main_model, hopts, hm, h2, hf, stepError]
  · have hm : env.mlockall_ok = true := by
      have h1 := hbefore 1 (by omega) (by omega)
      by_contra h
      rw [Bool.not_eq_true] at h
      simp [stepError, h] at h1
    have h2 : env.attr_init = 0 := by
      simpa [stepError] using hbefore 2 (by omega) (by omega)
    have h3 : env.setstacksize = 0 := by
      simpa [stepError] using hbefore 3 (by omega) (by omega)
    have hf : env.setschedpolicy ≠ 0 := by simpa [stepError] using hfail
    simp [main_model, hopts, hm, h2, h3, hf, stepError]
  · have hm : env.mlockall_ok = true := by
      have h1 := hbefore 1 (by omega) (by omega)
      by_contra h
      rw [Bool.not_eq_true] at h
      simp [stepError, h] at h1
    have h2 : env.attr_init = 0 := by
      simpa [stepError] using hbefore 2 (by omega) (by omega)
    have h3 : env.setstacksize = 0 := by
      simpa [stepError] using hbefore 3 (by omega) (by omega)
    have h4 : env.setschedpolicy = 0 := by
      simpa [stepError] using hbefore 4 (by omega) (by omega)
    have hf : env.setschedparam ≠ 0 := by simpa [stepError] using hfail
    simp [main_model, hopts, hm, h2, h3, h4, hf, stepError]
  · have hm : env.mlockall_ok = true := by
      have h1 := hbefore 1 (by omega) (by omega)
      by_contra h
      rw [Bool.not_eq_true] at h
      simp [stepError, h] at h1
    have h2 : env.attr_init = 0 := by
      simpa [stepError] using hbefore 2 (by omega) (by omega)
    have h3 : env.setstacksize = 0 := by
      simpa [stepError] using hbefore 3 (by omega) (by omega)
    have h4 : env.setschedpolicy = 0 := by
      simpa [stepError] using hbefore 4 (by omega) (by omega)
    have h5 : env.setschedparam = 0 := by
      simpa [stepError] using hbefore 5 (by omega) (by omega)
    have hf : env.setinheritsched ≠ 0 := by simpa [stepError] using hfail
    simp [main_model, hopts, hm, h2, h3, h4, h5, hf, stepError]
  · have hm : env.mlockall_ok = true := by
      have h1 := hbefore 1 (by omega) (by omega)
      by_contra h
      rw [Bool.not_eq_true] at h
      simp [stepError, h] at h1
    have h2 : env.attr_init = 0 := by
      simpa [stepError] using hbefore 2 (by omega) (by omega)
    have h3 : env.setstacksize = 0 := by
      simpa [stepError] using hbefore 3 (by omega) (by omega)
    have h4 : env.setschedpolicy = 0 := by
      simpa [stepError] using hbefore 4 (by omega) (by omega)
    have h5 : env.setschedparam = 0 := by
      simpa [stepError] using hbefore 5 (by omega) (by omega)
    have h6 : env.setinheritsched = 0 := by
      simpa [stepError] using hbefore 6 (by omega) (by omega)
    have hf : env.create ≠ 0 := by simpa [stepError] using hfail
    simp [main_model, hopts, hm, h2, h3, h4, h5, h6, hf, stepError]

/-- Witness for C7: scheduling-policy (step 4) fails with error code 1;
only steps 1–4 run, no thread is created, and the process exits with that
code. -/
theorem startup_first_failure_stops_witness :
    (main_model [] ⟨true, 0, 0, 1, 0, 0, 0, 0⟩).steps_attempted = 4 ∧
    (main_model [] ⟨true, 0, 0, 1, 0, 0, 0, 0⟩).thread_created = false ∧
    (main_model [] ⟨true, 0, 0, 1, 0, 0, 0, 0⟩).exit_code
      = stepError ⟨true, 0, 0, 1, 0, 0, 0, 0⟩ 4 ∧
    (main_model [] ⟨true, 0, 0, 1, 0, 0, 0, 0⟩).exit_code ≠ 0 ∧
    ((4 : ℕ) = 1 →
      (main_model [] ⟨true, 0, 0, 1, 0, 0, 0, 0⟩).exit_code = -2) :=
  startup_first_failure_stops [] ⟨true, 0, 0, 1, 0, 0, 0, 0⟩ 4
    (by decide) (by decide) (by decide) (by decide)
    (by intro j h1 h2; interval_cases j <;> rfl)

/-- C8: invalid CLI flag handling. Whenever the option stream contains an
unrecognized flag, `main` prints the usage message to standard error and
exits with `EXIT_FAILURE` (non-zero) before memory is locked, before any
setup step runs, and before any worker thread is created. -/
theorem unknown_flag_usage_exit (opts : List OptResult) (env : SetupEnv)
    (h : OptResult.unknown ∈ opts) :
    (main_model opts env).usage_printed = true ∧
    (main_model opts env).exit_code = EXIT_FAILURE ∧
    (main_model opts env).exit_code ≠ 0 ∧
    (main_model opts env).memory_locked = false ∧
    (main_model opts env).thread_created = false ∧
    (main_model opts env).steps_attempted = 0 := by
  simp [main_model, h, EXIT_FAILURE]

/-- Witness for C8: an argument vector with a valid `-p 2.5` followed by
an unrecognized flag. -/
theorem unknown_flag_usage_exit_witness :
    (main_model [OptResult.optP "2.5", OptResult.unknown]
        ⟨true, 0, 0, 0, 0, 0, 0, 0⟩).usage_printed = true ∧
    (main_model [OptResult.optP "2.5", OptResult.unknown]
        ⟨true, 0, 0, 0, 0, 0, 0, 0⟩).exit_code = EXIT_FAILURE ∧
    (main_model [OptResult.optP "2.5", OptResult.unknown]
        ⟨true, 0, 0, 0, 0, 0, 0, 0⟩).exit_code ≠ 0 ∧
    (main_model [OptResult.optP "2.5", OptResult.unknown]
        ⟨true, 0, 0, 0, 0, 0, 0, 0⟩).memory_locked = false ∧
    (main_model [OptResult.optP "2.5", OptResult.unknown]
        ⟨true, 0, 0, 0, 0, 0, 0, 0⟩).thread_created = false ∧
    (main_model [OptResult.optP "2.5", OptResult.unknown]
        ⟨true, 0, 0, 0, 0, 0, 0, 0⟩).steps_attempted = 0 :=
  unknown_flag_usage_exit [OptResult.optP "2.5", OptResult.unknown]
    ⟨true, 0, 0, 0, 0, 0, 0, 0⟩ (by simp)

end RtTester
